import Mathlib

/-!
Shallow embedding of the truthhain document-registry backend
(src/backend) and proofs of its specified properties.

Conventions of the embedding:
- a Python `bytes` value is a `List Nat`, each element a byte taken
  modulo 256 where the byte-ness matters;
- Python strings are Lean `String`s; Python `str.lower()` is modelled
  as ASCII lowercasing (all strings the registry compares are ASCII);
- fallible operations return `Option`/`Except`; machine words are `Nat`
  with explicit reductions modulo 2 ^ 32.
-/

namespace TruthChain

/-! ## HashIdentity: SHA-256 (services/hasher.py, compute_sha256_bytes)

`hashlib.sha256` is the reference; the FIPS 180-4 algorithm is embedded
below over byte lists, with 32-bit words as `Nat` reduced mod 2 ^ 32. -/

/-- Reduce a word modulo 2 ^ 32. -/
def wmod (x : Nat) : Nat := x % 4294967296

/-- Right rotation of a 32-bit word by `n` places (for `x < 2 ^ 32`). -/
def rotr (n x : Nat) : Nat := wmod (x / 2 ^ n + x * 2 ^ (32 - n))

/-- Bitwise complement within 32 bits. -/
def wnot (x : Nat) : Nat := x ^^^ 4294967295

def smallSigma0 (x : Nat) : Nat := rotr 7 x ^^^ rotr 18 x ^^^ x / 2 ^ 3

def smallSigma1 (x : Nat) : Nat := rotr 17 x ^^^ rotr 19 x ^^^ x / 2 ^ 10

def bigSigma0 (x : Nat) : Nat := rotr 2 x ^^^ rotr 13 x ^^^ rotr 22 x

def bigSigma1 (x : Nat) : Nat := rotr 6 x ^^^ rotr 11 x ^^^ rotr 25 x

/-- The eight working variables of the SHA-256 compression function. -/
structure Hash8 where
  a : Nat
  b : Nat
  c : Nat
  d : Nat
  e : Nat
  f : Nat
  g : Nat
  h : Nat
deriving Repr, DecidableEq

/-- SHA-256 initial hash value (FIPS 180-4 §5.3.3, written in
decimal). -/
def initH : Hash8 :=
  ⟨1779033703, 3144134277, 1013904242, 2773480762,
   1359893119, 2600822924, 528734635, 1541459225⟩

/-- The 64 SHA-256 round constants (FIPS 180-4 §4.2.2, written in
decimal). -/
def roundK : List Nat :=
  [1116352408, 1899447441, 3049323471, 3921009573, 961987163,
   1508970993, 2453635748, 2870763221, 3624381080, 310598401, 607225278,
   1426881987, 1925078388, 2162078206, 2614888103, 3248222580,
   3835390401, 4022224774, 264347078, 604807628, 770255983, 1249150122,
   1555081692, 1996064986, 2554220882, 2821834349, 2952996808,
   3210313671, 3336571891, 3584528711, 113926993, 338241895, 666307205,
   773529912, 1294757372, 1396182291, 1695183700, 1986661051,
   2177026350, 2456956037, 2730485921, 2820302411, 3259730800,
   3345764771, 3516065817, 3600352804, 4094571909, 275423344, 430227734,
   506948616, 659060556, 883997877, 958139571, 1322822218, 1537002063,
   1747873779, 1955562222, 2024104815, 2227730452, 2361852424,
   2428436474, 2756734187, 3204031479, 3329325298]

/-- Merkle–Damgård padding: append 0x80, zeros to 56 mod 64, then the
bit length as 8 big-endian bytes. Input bytes are reduced mod 256. -/
def pad (msg : List Nat) : List Nat :=
  let l := msg.length
  let k := (119 - l % 64) % 64
  let bitLen := l * 8
  msg.map (· % 256) ++ [128] ++ List.replicate k 0 ++
    [bitLen / 2 ^ 56 % 256, bitLen / 2 ^ 48 % 256,
     bitLen / 2 ^ 40 % 256, bitLen / 2 ^ 32 % 256,
     bitLen / 2 ^ 24 % 256, bitLen / 2 ^ 16 % 256,
     bitLen / 2 ^ 8 % 256, bitLen % 256]

/-- Split a byte list into 64-byte chunks; the fuel argument (call with
the list length) makes the recursion structural. -/
def toChunks : Nat → List Nat → List (List Nat)
  | 0, _ => []
  | _ + 1, [] => []
  | n + 1, x :: xs => (x :: xs).take 64 :: toChunks n ((x :: xs).drop 64)

/-- Big-endian 32-bit words from bytes. -/
def bytesToWords : List Nat → List Nat
  | b0 :: b1 :: b2 :: b3 :: rest =>
      (((b0 * 256 + b1) * 256 + b2) * 256 + b3) :: bytesToWords rest
  | _ => []

/-- One step of the SHA-256 message-schedule extension. -/
def extendStep (ws : List Nat) : List Nat :=
  let t := ws.length
  let x := wmod (smallSigma1 (ws.getD (t - 2) 0) + ws.getD (t - 7) 0 +
                 smallSigma0 (ws.getD (t - 15) 0) + ws.getD (t - 16) 0)
  ws ++ [x]

/-- Iterate the message-schedule extension `n` times. -/
def extendN : Nat → List Nat → List Nat
  | 0, ws => ws
  | n + 1, ws => extendN n (extendStep ws)

/-- One SHA-256 round on the working variables. -/
def roundStep (st : Hash8) (k w : Nat) : Hash8 :=
  let ch := (st.e &&& st.f) ^^^ (wnot st.e &&& st.g)
  let maj := (st.a &&& st.b) ^^^ (st.a &&& st.c) ^^^ (st.b &&& st.c)
  let t1 := wmod (st.h + bigSigma1 st.e + ch + k + w)
  let t2 := wmod (bigSigma0 st.a + maj)
  ⟨wmod (t1 + t2), st.a, st.b, st.c, wmod (st.d + t1), st.e, st.f, st.g⟩

/-- Compress one 64-byte chunk into the running hash value. -/
def compress (st : Hash8) (chunk : List Nat) : Hash8 :=
  let ws := extendN 48 (bytesToWords chunk)
  let fin := (roundK.zip ws).foldl (fun s kw => roundStep s kw.1 kw.2) st
  ⟨wmod (st.a + fin.a), wmod (st.b + fin.b), wmod (st.c + fin.c),
   wmod (st.d + fin.d), wmod (st.e + fin.e), wmod (st.f + fin.f),
   wmod (st.g + fin.g), wmod (st.h + fin.h)⟩

/-- SHA-256 digest of a byte list, as the eight final hash words. -/
def sha256Words (msg : List Nat) : Hash8 :=
  let padded := pad msg
  (toChunks padded.length padded).foldl compress initH

/-- The four big-endian bytes of a 32-bit word. -/
def wordBytes (w : Nat) : List Nat :=
  [w / 2 ^ 24 % 256, w / 2 ^ 16 % 256, w / 2 ^ 8 % 256, w % 256]

/-- SHA-256 digest of a byte list, as its 32 bytes. -/
def sha256Bytes (msg : List Nat) : List Nat :=
  let d := sha256Words msg
  wordBytes d.a ++ wordBytes d.b ++ wordBytes d.c ++ wordBytes d.d ++
  wordBytes d.e ++ wordBytes d.f ++ wordBytes d.g ++ wordBytes d.h

/-- The sixteen lowercase hexadecimal digits. -/
def hexDigits : List Char := "0123456789abcdef".data

/-- The lowercase hexadecimal digit of value `n < 16`. -/
def hexChar (n : Nat) : Char := hexDigits.getD n '0'

/-- The two lowercase hex characters of one byte. -/
def byteToHexChars (b : Nat) : List Char :=
  [hexChar (b / 16 % 16), hexChar (b % 16)]

/-- Lowercase hex encoding of a byte list (Python `bytes.hex()`). -/
def bytesToHexChars (bs : List Nat) : List Char :=
  (bs.map byteToHexChars).flatten

/-- services/hasher.py `compute_sha256_bytes`: the SHA-256 digest of the
content, hex encoded (`hashlib.sha256(content).hexdigest()`). -/
def compute_sha256_bytes (content : List Nat) : String :=
  String.mk (bytesToHexChars (sha256Bytes content))

/-! ## String helpers

All strings the registry compares (hex digests, document types, titles,
CATS identifiers) are ASCII, so Python `str.lower()`/`str.upper()` are
modelled as ASCII case mapping. -/

/-- ASCII lowercase of one character. -/
def charLower (c : Char) : Char :=
  if 'A' ≤ c ∧ c ≤ 'Z' then Char.ofNat (c.toNat + 32) else c

/-- ASCII uppercase of one character. -/
def charUpper (c : Char) : Char :=
  if 'a' ≤ c ∧ c ≤ 'z' then Char.ofNat (c.toNat - 32) else c

/-- Python `str.lower()` on ASCII strings. -/
def strLower (s : String) : String := String.mk (s.data.map charLower)

/-- Python `str.upper()` on ASCII strings. -/
def strUpper (s : String) : String := String.mk (s.data.map charUpper)

/-- Whether `needle` occurs as a contiguous substring of `hay` (Python
`needle in hay`). -/
def containsSub (hay needle : List Char) : Bool :=
  hay.tails.any (fun t => needle.isPrefixOf t)

/-- The value of one hexadecimal digit (either case). -/
def hexVal (c : Char) : Nat :=
  if '0' ≤ c ∧ c ≤ '9' then c.toNat - 48
  else if 'a' ≤ c ∧ c ≤ 'f' then c.toNat - 87
  else if 'A' ≤ c ∧ c ≤ 'F' then c.toNat - 55
  else 0

/-- Hex decoding of a character list, two digits per byte
(Python `bytes.fromhex`; callers pass valid even-length hex). -/
def fromHexChars : List Char → List Nat
  | c1 :: c2 :: rest => (hexVal c1 * 16 + hexVal c2) :: fromHexChars rest
  | _ => []

/-- Python `bytes.fromhex` on a string. -/
def fromHex (s : String) : List Nat := fromHexChars s.data

/-- services/hasher.py `verify_hash`: recompute the digest and compare
case-insensitively with the expected hex hash. -/
def verify_hash (content : List Nat) (expected_hash : String) : Bool :=
  strLower (compute_sha256_bytes content) == strLower expected_hash

/-! ## Data model (models/document.py) -/

/-- Document record as read from the chain (models/document.py
`DocumentMetadata`). -/
structure DocumentMetadata where
  hash : String
  document_type : String
  cats_number : Option String
  ipfs_cid : String
  title : String
  timestamp : Int
  page_number : Int
  is_modified : Bool
  modification_count : Nat
  registrar : String
  account_pubkey : String
deriving Repr, DecidableEq

/-- Result of document verification (models/document.py
`VerificationResult`). -/
structure VerificationResult where
  verified : Bool
  hash : String
  message : String
  document : Option DocumentMetadata
  solscan_url : Option String
deriving Repr, DecidableEq

/-- Paginated document search results (models/document.py
`DocumentSearchResult`). -/
structure DocumentSearchResult where
  documents : List DocumentMetadata
  total : Nat
  page : Nat
  limit : Nat
  has_more : Bool
deriving Repr, DecidableEq

/-- CATS record (models/document.py `CATSRecord`). -/
structure CATSRecord where
  cats_id : String
  property_name : Option String
  document_count : Nat
  document_hashes : List String
deriving Repr, DecidableEq

/-- Items/total pair returned by the client search
(services/solana_client.py `PaginatedResult`). -/
structure PaginatedResult where
  items : List DocumentMetadata
  total : Nat
deriving Repr, DecidableEq

/-- Registry statistics (services/solana_client.py `RegistryStats`);
the Python `dict` of per-type tallies is an insertion-ordered
association list. -/
structure RegistryStats where
  document_count : Nat
  modified_count : Nat
  unique_cats : Nat
  document_types : List (String × Nat)
deriving Repr, DecidableEq

/-! ## Ledger store

The ledger is an opaque key-addressed store; an association list keyed
by address models it, with the most recent write first (`List.lookup`
returns the first match, so a cons shadows older writes). Address
derivation (`Pubkey.find_program_address` in the solders library) is an
opaque deterministic function, passed as a parameter `derive`. -/

/-- The persisted record set, keyed by derived address. -/
def LedgerStore := List (String × DocumentMetadata)

/-- Read the record at an address. -/
def readAddr (st : LedgerStore) (addr : String) : Option DocumentMetadata :=
  List.lookup addr st

/-! ## Read paths (services/solana_client.py, main.py) -/

/-- services/solana_client.py `get_solscan_url`. -/
def get_solscan_url (network pubkey : String) : String :=
  let cluster := if network == "mainnet" then "" else "?cluster=devnet"
  "https://solscan.io/account/" ++ pubkey ++ cluster

/-- services/solana_client.py `get_document_by_hash`, happy path: fetch
the record at the document address derived from the hash bytes. -/
def get_document_by_hash (derive : List Nat → String) (st : LedgerStore)
    (hash_bytes : List Nat) : Option DocumentMetadata :=
  readAddr st (derive hash_bytes)

/-- main.py `verify_document` (lines 101–133): hash the content, look
up the record at the derived address, and shape one of the three
outcomes. -/
def verify_document (derive : List Nat → String) (st : LedgerStore)
    (network : String) (content : List Nat) : VerificationResult :=
  let hash_hex := compute_sha256_bytes content
  let hash_bytes := fromHex hash_hex
  match get_document_by_hash derive st hash_bytes with
  | none =>
      { verified := false, hash := hash_hex,
        message := "Document not found in Truth Chain registry",
        document := none, solscan_url := none }
  | some r =>
      if r.is_modified then
        { verified := true, hash := hash_hex,
          message := "⚠️ Document found but has been flagged as MODIFIED (stealth redaction detected)",
          document := some r,
          solscan_url := some (get_solscan_url network r.account_pubkey) }
      else
        { verified := true, hash := hash_hex,
          message := "✓ Document verified - matches original DOJ release",
          document := some r,
          solscan_url := some (get_solscan_url network r.account_pubkey) }

/-- The document-type filter of `search_documents`: Python
`if document_type:` skips the filter for `None` and for the empty
string (truthiness). -/
def docTypeFilter (document_type : Option String)
    (l : List DocumentMetadata) : List DocumentMetadata :=
  match document_type with
  | some dt =>
      if dt == "" then l
      else l.filter (fun a => strLower a.document_type == strLower dt)
  | none => l

/-- The free-text filter of `search_documents`: substring match of the
lowercased query against lowercased title or CATS identifier; Python
truthiness skips the filter for `None` and the empty query, and an
absent or empty CATS identifier never matches. -/
def queryFilter (search_query : Option String)
    (l : List DocumentMetadata) : List DocumentMetadata :=
  match search_query with
  | some q =>
      if q == "" then l
      else
        let query := strLower q
        l.filter (fun a =>
          containsSub (strLower a.title).data query.data ||
          (match a.cats_number with
           | some c => c != "" && containsSub (strLower c).data query.data
           | none => false))
  | none => l

/-- Both filters of `search_documents`, document type first. -/
def searchFilter (document_type search_query : Option String)
    (l : List DocumentMetadata) : List DocumentMetadata :=
  queryFilter search_query (docTypeFilter document_type l)

/-- services/solana_client.py `search_documents`, happy path: filter
the full record set, then slice `[(page-1)*limit, page*limit)`. -/
def search_documents (page limit : Nat)
    (document_type search_query : Option String)
    (records : List DocumentMetadata) : PaginatedResult :=
  let filtered := searchFilter document_type search_query records
  let total := filtered.length
  let start := (page - 1) * limit
  { items := (filtered.drop start).take limit, total := total }

/-- main.py `list_documents` (lines 143–170): wrap the client search
and compute `has_more := total > page * limit`. -/
def list_documents (page limit : Nat)
    (document_type search_query : Option String)
    (records : List DocumentMetadata) : DocumentSearchResult :=
  let result := search_documents page limit document_type search_query records
  { documents := result.items, total := result.total, page := page,
    limit := limit, has_more := decide (result.total > page * limit) }

/-- The static CATS property table of `get_cats_record`
(insertion-ordered as in the Python dict). -/
def propertyMap : List (String × String) :=
  [("CATS-ZR", "Zorro Ranch"), ("CATS-LSJ", "Little St. James"),
   ("CATS-NYC", "New York")]

/-- Python `s.startswith(pre)`, over the character lists. -/
def strStartsWith (pre s : String) : Bool := pre.data.isPrefixOf s.data

/-- Property-name resolution of `get_cats_record`: the value of the
first table entry whose key starts the CATS identifier, else the
"Unknown Property" sentinel. -/
def resolveProperty (cats_id : String) : String :=
  match propertyMap.find? (fun kv => strStartsWith kv.1 cats_id) with
  | some kv => kv.2
  | none => "Unknown Property"

/-- services/solana_client.py `get_cats_record`, happy path: group the
records matching the CATS identifier exactly, resolve the property
name, and report count and hashes; absent when nothing matches. -/
def get_cats_record (cats_id : String)
    (records : List DocumentMetadata) : Option CATSRecord :=
  let matching := records.filter (fun a => a.cats_number == some cats_id)
  if matching.isEmpty then none
  else
    some { cats_id := cats_id,
           property_name := some (resolveProperty cats_id),
           document_count := matching.length,
           document_hashes := matching.map (fun a => a.hash) }

/-! ## Exception behavior of the read paths, as written

Each client read wraps the ledger fetch in `try`/bare `except` and
returns an empty or absent result on any exception. A raising fetch is
modelled by the failure constructor of the outcome type. -/

/-- Outcome of the anchorpy single-account fetch: it raises both when
the account does not exist and when the RPC transport fails; the two
failure modes are distinct events at the ledger. -/
inductive FetchResult where
  | found (r : DocumentMetadata)
  | missing
  | unavailable
deriving Repr, DecidableEq

/-- Outcome of the anchorpy all-accounts scan: the record list, or a
raised transport error. -/
inductive ScanResult where
  | ok (records : List DocumentMetadata)
  | unavailable
deriving Repr, DecidableEq

/-- services/solana_client.py `get_document_by_hash` as written: the
bare `except` turns every raised fetch — account missing or ledger
unavailable — into `None`. -/
def get_document_by_hash_code (fetch : FetchResult) : Option DocumentMetadata :=
  match fetch with
  | .found r => some r
  | .missing => none
  | .unavailable => none

/-- services/solana_client.py `search_documents` as written: the bare
`except` turns a raised scan into `PaginatedResult(items=[], total=0)`. -/
def search_documents_code (scan : ScanResult) (page limit : Nat)
    (document_type search_query : Option String) : PaginatedResult :=
  match scan with
  | .ok records => search_documents page limit document_type search_query records
  | .unavailable => { items := [], total := 0 }

/-- services/solana_client.py `get_cats_record` as written: the bare
`except` turns a raised scan into `None`. -/
def get_cats_record_code (scan : ScanResult) (cats_id : String) :
    Option CATSRecord :=
  match scan with
  | .ok records => get_cats_record cats_id records
  | .unavailable => none

/-- Increment the tally of one key in an insertion-ordered association
list (Python `dt_map[k] = dt_map.get(k, 0) + 1`). -/
def bumpCount (m : List (String × Nat)) (k : String) : List (String × Nat) :=
  if m.any (fun p => p.1 == k) then
    m.map (fun p => if p.1 == k then (p.1, p.2 + 1) else p)
  else m ++ [(k, 1)]

/-- services/solana_client.py `get_registry_stats`, happy path: the
registry counter plus tallies scanned from the record set; the CATS set
drops `None` and empty identifiers (Python truthiness). -/
def registry_stats (regCount : Nat) (records : List DocumentMetadata) :
    RegistryStats :=
  { document_count := regCount,
    modified_count := (records.filter (fun a => a.is_modified)).length,
    unique_cats :=
      (((records.filterMap (fun a => a.cats_number)).filter
        (fun c => c != "")).eraseDups).length,
    document_types := records.foldl (fun m a => bumpCount m a.document_type) [] }

/-- services/solana_client.py `get_registry_stats` as written: the bare
`except` turns a raised read into `RegistryStats(0,0,0,{})`. -/
def get_registry_stats_code (scan : Option (Nat × List DocumentMetadata)) :
    RegistryStats :=
  match scan with
  | some rr => registry_stats rr.1 rr.2
  | none => { document_count := 0, modified_count := 0, unique_cats := 0,
              document_types := [] }

/-! ## Write paths (spec-modelled)

The on-chain truth_chain program that executes registration and
flagging is not under src/ — src/ holds only its callers
(`SolanaClient.register_document` submits the transaction, and main.py
`flag_modification` calls a client method that src/ does not define).
The handlers are modelled from the spec, §4.3, §4.4 and §7. -/

/-- Ledger state: the addressed record store plus the registry's
document counter (spec §3, Registry singleton). -/
structure LedgerState where
  store : LedgerStore
  document_count : Nat

/-- Registration errors (spec §7 taxonomy). -/
inductive RegError where
  | invalidInput
  | duplicateRegistration
deriving Repr, DecidableEq

/-- Flagging errors (spec §7 taxonomy). -/
inductive FlagError where
  | invalidInput
  | notFound
deriving Repr, DecidableEq

/-- Modelled from the spec: the on-chain `register_document` handler
(not under src/). Spec §4.3: validate the inputs (32-byte hash,
non-empty type; §7 rejects invalid input before any ledger call), then
write-if-absent at the derived document address; an occupied address
fails with DuplicateRegistration and changes nothing; success stores
the new record and increments the registry's document count. -/
def register_document (derive : List Nat → String) (st : LedgerState)
    (h : List Nat) (document_type : String) (cats_number : Option String)
    (ipfs_cid : String) (page_number : Int) (title : String)
    (timestamp : Int) (registrar : String) :
    Except RegError DocumentMetadata × LedgerState :=
  if h.length ≠ 32 ∨ document_type = "" then (.error .invalidInput, st)
  else
    let addr := derive h
    match readAddr st.store addr with
    | some _ => (.error .duplicateRegistration, st)
    | none =>
        let r : DocumentMetadata :=
          { hash := String.mk (bytesToHexChars h),
            document_type := document_type, cats_number := cats_number,
            ipfs_cid := ipfs_cid, title := title, timestamp := timestamp,
            page_number := page_number, is_modified := false,
            modification_count := 0, registrar := registrar,
            account_pubkey := addr }
        (.ok r, { store := (addr, r) :: st.store,
                  document_count := st.document_count + 1 })

/-- Modelled from the spec: the modification-flagging path
(`SolanaClient.flag_document_modification` and its on-chain handler,
not under src/). Spec §4.4 and §7: reject `new_hash = original_hash`
as invalid input before any ledger call; fail with NotFound when no
record exists at the derived address; otherwise set the modification
flag, increment the modification count, and write back to the same
address, returning a transaction reference. -/
def flag_document_modification (derive : List Nat → String)
    (st : LedgerState) (original_hash new_hash : List Nat)
    (_evidence : String) : Except FlagError String × LedgerState :=
  if new_hash = original_hash then (.error .invalidInput, st)
  else
    let addr := derive original_hash
    match readAddr st.store addr with
    | none => (.error .notFound, st)
    | some r =>
        let r2 := { r with is_modified := true,
                           modification_count := r.modification_count + 1 }
        (.ok "flag-tx", { store := (addr, r2) :: st.store,
                          document_count := st.document_count })

/-! ## Helper lemmas -/

/-- The digest byte list always has exactly 32 entries. -/
theorem length_sha256Bytes (msg : List Nat) : (sha256Bytes msg).length = 32 := by
  simp [sha256Bytes, wordBytes]

/-- Hex encoding doubles the length. -/
theorem length_bytesToHexChars (bs : List Nat) :
    (bytesToHexChars bs).length = 2 * bs.length := by
  induction bs with
  | nil => rfl
  | cons b t ih =>
      have hc : bytesToHexChars (b :: t) = byteToHexChars b ++ bytesToHexChars t := by
        simp [bytesToHexChars]
      rw [hc, List.length_append, ih]
      simp [byteToHexChars]
      omega

/-- Every output of `hexChar` is one of the sixteen lowercase hex
digits (out-of-range inputs fall back to the default digit). -/
theorem hexChar_mem_hexDigits (n : Nat) : hexChar n ∈ hexDigits := by
  by_cases h : n < 16
  · interval_cases n <;> decide
  · have hlen : hexDigits.length ≤ n := by
      simp only [hexDigits, List.length_cons, List.length_nil]
      omega
    rw [hexChar, List.getD_eq_default _ _ hlen]
    decide

/-- Every character of a hex encoding is a lowercase hex digit. -/
theorem mem_hexDigits_of_mem_bytesToHexChars {c : Char} {bs : List Nat}
    (h : c ∈ bytesToHexChars bs) : c ∈ hexDigits := by
  induction bs with
  | nil => simp [bytesToHexChars] at h
  | cons b t ih =>
      simp only [bytesToHexChars, List.map_cons, List.flatten_cons,
        List.mem_append] at h
      rcases h with h | h
      · simp only [byteToHexChars, List.mem_cons, List.not_mem_nil,
          or_false] at h
        rcases h with rfl | rfl <;> exact hexChar_mem_hexDigits _
      · exact ih h

/-- ASCII lowercasing fixes every lowercase hex digit. -/
theorem charLower_of_mem_hexDigits : ∀ c ∈ hexDigits, charLower c = c := by
  decide

/-- Uppercasing then lowercasing restores every lowercase hex digit. -/
theorem charLower_charUpper_of_mem_hexDigits :
    ∀ c ∈ hexDigits, charLower (charUpper c) = c := by
  decide

/-- Lowercasing fixes character lists made of lowercase hex digits. -/
theorem map_charLower_of_hex {l : List Char}
    (h : ∀ c ∈ l, c ∈ hexDigits) : l.map charLower = l := by
  induction l with
  | nil => rfl
  | cons c t ih =>
      simp only [List.map_cons, List.cons.injEq]
      exact ⟨charLower_of_mem_hexDigits c (h c (List.mem_cons_self c t)),
             ih fun x hx => h x (List.mem_cons_of_mem c hx)⟩

/-- Uppercasing then lowercasing restores lowercase hex character
lists. -/
theorem map_charLower_charUpper_of_hex {l : List Char}
    (h : ∀ c ∈ l, c ∈ hexDigits) :
    (l.map charUpper).map charLower = l := by
  induction l with
  | nil => rfl
  | cons c t ih =>
      simp only [List.map_cons, List.cons.injEq]
      exact ⟨charLower_charUpper_of_mem_hexDigits c (h c (List.mem_cons_self c t)),
             ih fun x hx => h x (List.mem_cons_of_mem c hx)⟩

/-- The characters of a computed digest are lowercase hex digits. -/
theorem digest_chars_hex (b : List Nat) :
    ∀ c ∈ (compute_sha256_bytes b).data, c ∈ hexDigits := fun _ hc =>
  mem_hexDigits_of_mem_bytesToHexChars hc

/-- A computed digest is untouched by lowercasing. -/
theorem strLower_digest (b : List Nat) :
    strLower (compute_sha256_bytes b) = compute_sha256_bytes b := by
  have h := @map_charLower_of_hex (bytesToHexChars (sha256Bytes b))
    (digest_chars_hex b)
  show String.mk ((bytesToHexChars (sha256Bytes b)).map charLower) = _
  rw [h]
  rfl

/-- Uppercasing then lowercasing restores a computed digest. -/
theorem strLower_strUpper_digest (b : List Nat) :
    strLower (strUpper (compute_sha256_bytes b)) = compute_sha256_bytes b := by
  have h := @map_charLower_charUpper_of_hex (bytesToHexChars (sha256Bytes b))
    (digest_chars_hex b)
  show String.mk (((bytesToHexChars (sha256Bytes b)).map charUpper).map charLower) = _
  rw [h]
  rfl

/-! ## Embedding validation against hashlib test vectors -/

set_option maxRecDepth 10000 in
/-- The embedded SHA-256 agrees with `hashlib.sha256` on the empty
input. -/
theorem compute_sha256_bytes_empty_vector :
    compute_sha256_bytes [] =
      "e3b0c44298fc1c149afbf4c8996fb92427ae41e4649b934ca495991b7852b855" := by
  rfl

set_option maxRecDepth 10000 in
/-- The embedded SHA-256 agrees with `hashlib.sha256` on the bytes of
"abc". -/
theorem compute_sha256_bytes_abc_vector :
    compute_sha256_bytes [97, 98, 99] =
      "ba7816bf8f01cfea414140de5dae2223b00361a396177a9cb410ff61f20015ad" := by
  rfl

/-! ## Claim theorems -/

/-- C7: for every byte sequence `b`, including the empty one,
`compute_sha256_bytes b` succeeds (it is a total function), its value
is the hex encoding of the 32-byte SHA-256 digest, it has 64 lowercase
hex characters, and re-computing it yields the identical value. -/
theorem hash_total_deterministic_lowercase_hex (b : List Nat) :
    compute_sha256_bytes b = String.mk (bytesToHexChars (sha256Bytes b)) ∧
    (sha256Bytes b).length = 32 ∧
    (compute_sha256_bytes b).length = 64 ∧
    ((compute_sha256_bytes b).data.all fun c => decide (c ∈ hexDigits)) = true ∧
    compute_sha256_bytes b = compute_sha256_bytes b := by
  refine ⟨rfl, length_sha256Bytes b, ?_, ?_, rfl⟩
  · show (bytesToHexChars (sha256Bytes b)).length = 64
    rw [length_bytesToHexChars, length_sha256Bytes]
  · rw [List.all_eq_true]
    intro c hc
    exact decide_eq_true (digest_chars_hex b c hc)

/-- C10: `verify_hash content h` is true exactly when `h` equals the
SHA-256 hex digest of `content` up to ASCII case; in particular it
accepts the digest itself and the digest's uppercase form. -/
theorem verify_hash_case_insensitive (content : List Nat) (expected : String) :
    (verify_hash content expected = true ↔
       strLower expected = compute_sha256_bytes content) ∧
    verify_hash content (compute_sha256_bytes content) = true ∧
    verify_hash content (strUpper (compute_sha256_bytes content)) = true := by
  have hl := strLower_digest content
  refine ⟨?_, ?_, ?_⟩
  · show (strLower (compute_sha256_bytes content) == strLower expected) = true ↔ _
    rw [hl, beq_iff_eq]
    exact eq_comm
  · show (strLower (compute_sha256_bytes content) ==
        strLower (compute_sha256_bytes content)) = true
    exact beq_self_eq_true _
  · show (strLower (compute_sha256_bytes content) ==
        strLower (strUpper (compute_sha256_bytes content))) = true
    rw [hl, strLower_strUpper_digest]
    exact beq_self_eq_true _

/-! ## Concrete records for witnesses -/

/-- A sample unmodified record. -/
def docClean : DocumentMetadata :=
  { hash := "aa", document_type := "Deposition",
    cats_number := some "CATS-ZR-101", ipfs_cid := "cid1",
    title := "Doe v. State", timestamp := 1700000000, page_number := 1,
    is_modified := false, modification_count := 0, registrar := "auth1",
    account_pubkey := "pk1" }

/-- A sample record already flagged as modified. -/
def docFlagged : DocumentMetadata :=
  { docClean with
    title := "Flight Log", cats_number := some "XYZ-9",
    is_modified := true, modification_count := 2, account_pubkey := "pk2" }

/-- A concrete address-derivation instance for witnesses. -/
def constDerive : List Nat → String := fun _ => "addr1"

/-- C1: verification has exactly three outcomes, determined by the
record at the derived address: absent gives verified=false with no
record and the not-found message; a present unmodified record gives
verified=true with the clean match message; a present modified record
gives verified=true with the modified-flag message; and the three
messages are pairwise distinct, so the outcomes never collapse. -/
theorem verify_document_three_outcomes (derive : List Nat → String)
    (st : LedgerStore) (network : String) (content : List Nat) :
    (readAddr st (derive (fromHex (compute_sha256_bytes content))) = none →
       verify_document derive st network content =
         { verified := false, hash := compute_sha256_bytes content,
           message := "Document not found in Truth Chain registry",
           document := none, solscan_url := none }) ∧
    (∀ r, readAddr st (derive (fromHex (compute_sha256_bytes content))) = some r →
       r.is_modified = false →
       verify_document derive st network content =
         { verified := true, hash := compute_sha256_bytes content,
           message := "✓ Document verified - matches original DOJ release",
           document := some r,
           solscan_url := some (get_solscan_url network r.account_pubkey) }) ∧
    (∀ r, readAddr st (derive (fromHex (compute_sha256_bytes content))) = some r →
       r.is_modified = true →
       verify_document derive st network content =
         { verified := true, hash := compute_sha256_bytes content,
           message := "⚠️ Document found but has been flagged as MODIFIED (stealth redaction detected)",
           document := some r,
           solscan_url := some (get_solscan_url network r.account_pubkey) }) ∧
    ("Document not found in Truth Chain registry" ≠
       "✓ Document verified - matches original DOJ release") ∧
    ("Document not found in Truth Chain registry" ≠
       "⚠️ Document found but has been flagged as MODIFIED (stealth redaction detected)") ∧
    ("✓ Document verified - matches original DOJ release" ≠
       "⚠️ Document found but has been flagged as MODIFIED (stealth redaction detected)") := by
  refine ⟨?_, ?_, ?_, by decide, by decide, by decide⟩
  · intro h
    simp [verify_document, get_document_by_hash, h]
  · intro r hr hm
    simp [verify_document, get_document_by_hash, hr, hm]
  · intro r hr hm
    simp [verify_document, get_document_by_hash, hr, hm]

/-- Witness for C1: the three outcomes at concrete stores — empty, a
clean record at the derived address, a flagged record there. -/
theorem verify_document_three_outcomes_witness :
    verify_document constDerive [] "devnet" [] =
      { verified := false, hash := compute_sha256_bytes [],
        message := "Document not found in Truth Chain registry",
        document := none, solscan_url := none } ∧
    verify_document constDerive [("addr1", docClean)] "devnet" [] =
      { verified := true, hash := compute_sha256_bytes [],
        message := "✓ Document verified - matches original DOJ release",
        document := some docClean,
        solscan_url := some (get_solscan_url "devnet" "pk1") } ∧
    verify_document constDerive [("addr1", docFlagged)] "devnet" [] =
      { verified := true, hash := compute_sha256_bytes [],
        message := "⚠️ Document found but has been flagged as MODIFIED (stealth redaction detected)",
        document := some docFlagged,
        solscan_url := some (get_solscan_url "devnet" "pk2") } := by
  refine ⟨?_, ?_, ?_⟩
  · exact (verify_document_three_outcomes constDerive [] "devnet" []).1 rfl
  · exact (verify_document_three_outcomes constDerive
      [("addr1", docClean)] "devnet" []).2.1 docClean rfl (by rfl)
  · exact (verify_document_three_outcomes constDerive
      [("addr1", docFlagged)] "devnet" []).2.2.1 docFlagged rfl (by rfl)

/-- C4 (behavior of the code as written, at a failing input): every
read path catches any raised ledger error with a bare `except` and
returns the same value as for absent or empty data — ledger
unavailability is not surfaced as a distinct failure. -/
theorem ledger_unavailable_collapsed_to_empty :
    get_document_by_hash_code .unavailable = none ∧
    get_document_by_hash_code .missing = none ∧
    search_documents_code .unavailable 1 20 none none =
      { items := [], total := 0 } ∧
    search_documents_code (.ok []) 1 20 none none =
      { items := [], total := 0 } ∧
    get_cats_record_code .unavailable "CATS-ZR-101" = none ∧
    get_cats_record_code (.ok []) "CATS-ZR-101" = none ∧
    get_registry_stats_code none = get_registry_stats_code (some (0, [])) := by
  exact ⟨rfl, rfl, rfl, rfl, rfl, rfl, rfl⟩

/-- C2: when a record already occupies the address derived from `h`, a
further well-formed register call with `h` fails with
DuplicateRegistration, returns the ledger state unchanged, and the
existing record is still the one stored at that address
(first-write-wins). -/
theorem register_document_first_write_wins (derive : List Nat → String)
    (st : LedgerState) (h : List Nat) (dt : String) (cn : Option String)
    (cid : String) (pn : Int) (title : String) (ts : Int) (reg : String)
    (r : DocumentMetadata)
    (hocc : readAddr st.store (derive h) = some r)
    (hlen : h.length = 32) (hdt : dt ≠ "") :
    register_document derive st h dt cn cid pn title ts reg =
      (.error .duplicateRegistration, st) ∧
    readAddr ((register_document derive st h dt cn cid pn title ts reg).2).store
      (derive h) = some r := by
  have hv : ¬(h.length ≠ 32 ∨ dt = "") := by
    push_neg
    exact ⟨hlen, hdt⟩
  have heq : register_document derive st h dt cn cid pn title ts reg =
      (.error .duplicateRegistration, st) := by
    simp [register_document, hv, hocc]
  refine ⟨heq, ?_⟩
  rw [heq]
  exact hocc

/-- Witness for C2: with a record already stored at the derived
address, a concrete register call fails with DuplicateRegistration and
the stored record is untouched. -/
theorem register_document_first_write_wins_witness :
    register_document constDerive ⟨[("addr1", docClean)], 1⟩
        (List.replicate 32 0) "Deposition" none "cid2" 1 "Doe v. State"
        1700000001 "auth1" =
      (.error .duplicateRegistration, ⟨[("addr1", docClean)], 1⟩) ∧
    readAddr ((register_document constDerive ⟨[("addr1", docClean)], 1⟩
        (List.replicate 32 0) "Deposition" none "cid2" 1 "Doe v. State"
        1700000001 "auth1").2).store (constDerive (List.replicate 32 0)) =
      some docClean := by
  exact register_document_first_write_wins constDerive
    ⟨[("addr1", docClean)], 1⟩ (List.replicate 32 0) "Deposition" none "cid2"
    1 "Doe v. State" 1700000001 "auth1" docClean rfl (by decide) (by decide)

/-- C3: flagging rejects `new_hash = original_hash` as invalid input;
with distinct hashes it fails with NotFound when no record exists at
the derived address; and only when both preconditions hold does it
write back the record with the modification flag set and the
modification count incremented. -/
theorem flag_document_modification_preconditions (derive : List Nat → String)
    (st : LedgerState) (oh nh : List Nat) (ev : String) :
    (nh = oh →
       flag_document_modification derive st oh nh ev =
         (.error .invalidInput, st)) ∧
    (nh ≠ oh → readAddr st.store (derive oh) = none →
       flag_document_modification derive st oh nh ev =
         (.error .notFound, st)) ∧
    (∀ r, nh ≠ oh → readAddr st.store (derive oh) = some r →
       flag_document_modification derive st oh nh ev =
         (.ok "flag-tx",
          { store := (derive oh,
              { r with
                is_modified := true,
                modification_count := r.modification_count + 1 }) :: st.store,
            document_count := st.document_count }) ∧
       readAddr ((flag_document_modification derive st oh nh ev).2).store
           (derive oh) =
         some { r with
                is_modified := true,
                modification_count := r.modification_count + 1 }) := by
  refine ⟨?_, ?_, ?_⟩
  · intro h
    simp [flag_document_modification, h]
  · intro hne hnone
    simp [flag_document_modification, hne, hnone]
  · intro r hne hsome
    have heq : flag_document_modification derive st oh nh ev =
        (.ok "flag-tx",
         { store := (derive oh,
             { r with
               is_modified := true,
               modification_count := r.modification_count + 1 }) :: st.store,
           document_count := st.document_count }) := by
      simp [flag_document_modification, hne, hsome]
    refine ⟨heq, ?_⟩
    rw [heq]
    simp [readAddr, List.lookup]

/-- Witness for C3: the three flag outcomes at concrete inputs — a
self-flag, a flag of an unregistered hash, and a successful flag that
sets the modification fields. -/
theorem flag_document_modification_preconditions_witness :
    flag_document_modification constDerive ⟨[("addr1", docClean)], 1⟩
        (List.replicate 32 0) (List.replicate 32 0) "ev" =
      (.error .invalidInput, ⟨[("addr1", docClean)], 1⟩) ∧
    flag_document_modification constDerive ⟨[], 0⟩
        (List.replicate 32 0) (List.replicate 32 1) "ev" =
      (.error .notFound, ⟨[], 0⟩) ∧
    readAddr ((flag_document_modification constDerive
        ⟨[("addr1", docClean)], 1⟩ (List.replicate 32 0)
        (List.replicate 32 1) "ev").2).store "addr1" =
      some { docClean with is_modified := true, modification_count := 1 } := by
  refine ⟨?_, ?_, ?_⟩
  · exact (flag_document_modification_preconditions constDerive
      ⟨[("addr1", docClean)], 1⟩ (List.replicate 32 0)
      (List.replicate 32 0) "ev").1 rfl
  · exact (flag_document_modification_preconditions constDerive
      ⟨[], 0⟩ (List.replicate 32 0) (List.replicate 32 1) "ev").2.1
      (by decide) rfl
  · exact ((flag_document_modification_preconditions constDerive
      ⟨[("addr1", docClean)], 1⟩ (List.replicate 32 0)
      (List.replicate 32 1) "ev").2.2 docClean (by decide) rfl).2

/-- A family of pairwise distinct sample records. -/
def mkDoc (i : Nat) : DocumentMetadata :=
  { docClean with
    hash := String.mk (byteToHexChars i), page_number := Int.ofNat i }

/-- A 25-record sample set. -/
def docs25 : List DocumentMetadata := (List.range 25).map mkDoc

/-- C5: over an unchanged record set, the listing's total is the
filtered size, its items are the slice `[(page-1)*limit, page*limit)`
of the filtered set clipped to its bounds, and has_more holds exactly
when `total > page*limit`; pages 1 and 2 with limit 20 over the
25-record sample return disjoint items totaling 25 with has_more true
then false. -/
theorem search_pagination (page limit : Nat) (dt q : Option String)
    (records : List DocumentMetadata)
    (hp : 1 ≤ page) (hl1 : 1 ≤ limit) (hl2 : limit ≤ 100) :
    (list_documents page limit dt q records).total =
      (searchFilter dt q records).length ∧
    (list_documents page limit dt q records).documents =
      ((searchFilter dt q records).drop ((page - 1) * limit)).take limit ∧
    (list_documents page limit dt q records).documents.length =
      min limit ((searchFilter dt q records).length - (page - 1) * limit) ∧
    (∀ i, i < (list_documents page limit dt q records).documents.length →
       (list_documents page limit dt q records).documents[i]? =
         (searchFilter dt q records)[(page - 1) * limit + i]?) ∧
    ((list_documents page limit dt q records).has_more = true ↔
       (searchFilter dt q records).length > page * limit) ∧
    (list_documents 1 20 none none docs25).documents.length = 20 ∧
    (list_documents 2 20 none none docs25).documents.length = 5 ∧
    (list_documents 1 20 none none docs25).total = 25 ∧
    (list_documents 2 20 none none docs25).total = 25 ∧
    ((list_documents 1 20 none none docs25).documents.all fun x =>
       !((list_documents 2 20 none none docs25).documents.contains x)) = true ∧
    (list_documents 1 20 none none docs25).has_more = true ∧
    (list_documents 2 20 none none docs25).has_more = false := by
  refine ⟨rfl, rfl, ?_, ?_, ?_, by decide, by decide, by decide, by decide,
    by decide, by decide, by decide⟩
  · show (((searchFilter dt q records).drop ((page - 1) * limit)).take limit).length = _
    rw [List.length_take, List.length_drop]
  · intro i hi
    show (((searchFilter dt q records).drop ((page - 1) * limit)).take limit)[i]? = _
    have hi2 : i < limit := by
      have := hi
      rw [show (list_documents page limit dt q records).documents =
            ((searchFilter dt q records).drop ((page - 1) * limit)).take limit
          from rfl, List.length_take] at this
      omega
    rw [List.getElem?_take, if_pos hi2, List.getElem?_drop]
  · show (decide ((searchFilter dt q records).length > page * limit) = true) ↔ _
    exact decide_eq_true_iff

/-- Witness for C5 at page 2, limit 20 over the 25-record sample. -/
theorem search_pagination_witness :
    (1 : Nat) ≤ 2 ∧ (1 : Nat) ≤ 20 ∧ (20 : Nat) ≤ 100 ∧
    (list_documents 2 20 none none docs25).total =
      (searchFilter none none docs25).length ∧
    ((list_documents 2 20 none none docs25).has_more = true ↔
      (searchFilter none none docs25).length > 2 * 20) :=
  ⟨by decide, by decide, by decide,
   (search_pagination 2 20 none none docs25 (by decide) (by decide)
     (by decide)).1,
   (search_pagination 2 20 none none docs25 (by decide) (by decide)
     (by decide)).2.2.2.2.1⟩

/-- Membership in the document-type filter, for a non-empty given
filter string. -/
theorem mem_docTypeFilter (dtf : Option String)
    (records : List DocumentMetadata) (r : DocumentMetadata)
    (hdt : ∀ s, dtf = some s → s ≠ "") :
    r ∈ docTypeFilter dtf records ↔
      r ∈ records ∧
      ∀ s, dtf = some s → strLower r.document_type = strLower s := by
  cases dtf with
  | none => simp [docTypeFilter]
  | some s =>
      have hs : s ≠ "" := hdt s rfl
      have hbeq : (s == "") = false := beq_eq_false_iff_ne.mpr hs
      simp only [docTypeFilter, hbeq, Bool.false_eq_true, if_false,
        List.mem_filter]
      constructor
      · rintro ⟨hm, hb⟩
        refine ⟨hm, fun t ht => ?_⟩
        injection ht with h2
        subst h2
        exact beq_iff_eq.mp hb
      · rintro ⟨hm, hall⟩
        exact ⟨hm, beq_iff_eq.mpr (hall s rfl)⟩

/-- Membership in the free-text filter: an empty or absent query keeps
everything; a non-empty query keeps a record exactly when its
lowercased title, or its non-empty lowercased CATS identifier,
contains the lowercased query. -/
theorem mem_queryFilter (qf : Option String)
    (l : List DocumentMetadata) (r : DocumentMetadata) :
    r ∈ queryFilter qf l ↔
      r ∈ l ∧
      ∀ s, qf = some s → s ≠ "" →
        containsSub (strLower r.title).data (strLower s).data = true ∨
        ∃ c, r.cats_number = some c ∧ c ≠ "" ∧
          containsSub (strLower c).data (strLower s).data = true := by
  cases qf with
  | none => simp [queryFilter]
  | some s =>
      by_cases hs : s = ""
      · subst hs
        simp only [queryFilter, beq_self_eq_true, if_true]
        constructor
        · intro h
          refine ⟨h, fun t ht hne => ?_⟩
          injection ht with h2
          exact absurd h2.symm hne
        · exact fun h => h.1
      · have hbeq : (s == "") = false := beq_eq_false_iff_ne.mpr hs
        simp only [queryFilter, hbeq, Bool.false_eq_true, if_false,
          List.mem_filter]
        constructor
        · rintro ⟨hm, hb⟩
          refine ⟨hm, fun t ht _ => ?_⟩
          injection ht with h2
          subst h2
          rw [Bool.or_eq_true] at hb
          rcases hb with h | h
          · exact Or.inl h
          · refine Or.inr ?_
            cases hc : r.cats_number with
            | none => rw [hc] at h; exact absurd h (by simp)
            | some c =>
                rw [hc, Bool.and_eq_true] at h
                exact ⟨c, rfl, bne_iff_ne.mp h.1, h.2⟩
        · rintro ⟨hm, hall⟩
          refine ⟨hm, ?_⟩
          rw [Bool.or_eq_true]
          rcases hall s rfl hs with h | ⟨c, hc, hcne, hsub⟩
          · exact Or.inl h
          · refine Or.inr ?_
            rw [hc, Bool.and_eq_true]
            exact ⟨bne_iff_ne.mpr hcne, hsub⟩

/-- C6 counterexample: with the document-type filter given as the
empty string, a record whose type differs from the filter (even up to
case) is not excluded — Python truthiness skips the filter — so the
claim fails as stated. -/
theorem search_filter_empty_type_counterexample :
    searchFilter (some "") none [docClean] = [docClean] ∧
    strLower docClean.document_type ≠ strLower "" := by
  exact ⟨rfl, by decide⟩

/-- C6 (amended): when every given filter string is non-empty (the
code treats an empty-string filter as absent), search keeps exactly
the records that pass both given filters — document type equal up to
case, free text contained up to case in the title or in a non-empty
CATS identifier — and no other record is excluded. -/
theorem search_filter_membership (dtf qf : Option String)
    (records : List DocumentMetadata) (r : DocumentMetadata)
    (hdt : ∀ s, dtf = some s → s ≠ "") :
    r ∈ searchFilter dtf qf records ↔
      r ∈ records ∧
      (∀ s, dtf = some s → strLower r.document_type = strLower s) ∧
      (∀ s, qf = some s → s ≠ "" →
        containsSub (strLower r.title).data (strLower s).data = true ∨
        ∃ c, r.cats_number = some c ∧ c ≠ "" ∧
          containsSub (strLower c).data (strLower s).data = true) := by
  unfold searchFilter
  rw [mem_queryFilter, mem_docTypeFilter dtf records r hdt, and_assoc]

/-- Witness for C6 at concrete filters and records: the Deposition
record whose title contains "Doe" is kept, the flagged Flight Log
record is dropped, and the membership equivalence is instantiated. -/
theorem search_filter_membership_witness :
    searchFilter (some "Deposition") (some "Doe") [docClean, docFlagged] =
      [docClean] ∧
    (docClean ∈ searchFilter (some "Deposition") (some "Doe")
        [docClean, docFlagged] ↔
      docClean ∈ [docClean, docFlagged] ∧
      (∀ s, (some "Deposition" : Option String) = some s →
        strLower docClean.document_type = strLower s) ∧
      (∀ s, (some "Doe" : Option String) = some s → s ≠ "" →
        containsSub (strLower docClean.title).data (strLower s).data = true ∨
        ∃ c, docClean.cats_number = some c ∧ c ≠ "" ∧
          containsSub (strLower c).data (strLower s).data = true)) :=
  ⟨by decide,
   search_filter_membership (some "Deposition") (some "Doe")
     [docClean, docFlagged] docClean
     (by intro s h; injection h with h2; subst h2; decide)⟩

/-- C9: CATS lookup is absent exactly when no record carries the
identifier; otherwise the returned record counts and lists exactly the
matching records' hashes, and its property name comes from the static
prefix table, an unmatched prefix resolving to the "Unknown Property"
sentinel and never to null. -/
theorem get_cats_record_spec (cats_id : String)
    (records : List DocumentMetadata) :
    (get_cats_record cats_id records = none ↔
       ∀ a ∈ records, a.cats_number ≠ some cats_id) ∧
    (∀ cr, get_cats_record cats_id records = some cr →
       cr.cats_id = cats_id ∧
       cr.document_count =
         (records.filter fun a => a.cats_number == some cats_id).length ∧
       cr.document_hashes =
         (records.filter fun a => a.cats_number == some cats_id).map
           (fun a => a.hash) ∧
       cr.property_name = some (resolveProperty cats_id) ∧
       cr.property_name ≠ none) ∧
    ((propertyMap.all fun kv => !(strStartsWith kv.1 cats_id)) = true →
       resolveProperty cats_id = "Unknown Property") := by
  refine ⟨?_, ?_, ?_⟩
  · constructor
    · intro h a ha hcontra
      by_cases he : (records.filter fun a => a.cats_number == some cats_id).isEmpty
      · rw [List.isEmpty_iff, List.filter_eq_nil_iff] at he
        exact he a ha (by rw [hcontra]; exact beq_self_eq_true _)
      · simp [get_cats_record, he] at h
    · intro hall
      have he : (records.filter fun a => a.cats_number == some cats_id) = [] := by
        rw [List.filter_eq_nil_iff]
        intro a ha hb
        exact hall a ha (beq_iff_eq.mp hb)
      simp [get_cats_record, he]
  · intro cr h
    by_cases he : (records.filter fun a => a.cats_number == some cats_id).isEmpty
    · simp [get_cats_record, he] at h
    · simp only [get_cats_record, he, Bool.false_eq_true, if_false,
        Option.some.injEq] at h
      subst h
      exact ⟨rfl, rfl, rfl, rfl, by simp⟩
  · intro hall
    rw [List.all_eq_true] at hall
    have hfind : propertyMap.find? (fun kv => strStartsWith kv.1 cats_id) = none := by
      rw [List.find?_eq_none]
      intro kv hkv
      have := hall kv hkv
      simp only [Bool.not_eq_eq_eq_not, Bool.not_true] at this
      simp [this]
    rw [resolveProperty, hfind]

/-- Witness for C9: a present identifier with a known prefix, an
absent identifier, and an identifier outside the prefix table. -/
theorem get_cats_record_spec_witness :
    get_cats_record "CATS-ZR-101" [docClean, docFlagged] =
      some { cats_id := "CATS-ZR-101", property_name := some "Zorro Ranch",
             document_count := 1, document_hashes := ["aa"] } ∧
    ({ cats_id := "CATS-ZR-101", property_name := some "Zorro Ranch",
       document_count := 1, document_hashes := ["aa"] } : CATSRecord).property_name =
      some (resolveProperty "CATS-ZR-101") ∧
    get_cats_record "CATS-MISSING" [docClean, docFlagged] = none ∧
    resolveProperty "XYZ-9" = "Unknown Property" := by
  refine ⟨by decide, ?_, ?_, ?_⟩
  · exact ((get_cats_record_spec "CATS-ZR-101" [docClean, docFlagged]).2.1
      { cats_id := "CATS-ZR-101", property_name := some "Zorro Ranch",
        document_count := 1, document_hashes := ["aa"] } (by decide)).2.2.2.1
  · exact (get_cats_record_spec "CATS-MISSING" [docClean, docFlagged]).1.mpr
      (by decide)
  · exact (get_cats_record_spec "XYZ-9" [docClean, docFlagged]).2.2 (by decide)

end TruthChain
